import Mathlib

/-!
Shallow embedding of the wait utilities of `Tools/autotest/common.py`
(class `AutoTest`): the condition-wait engine that polls telemetry
against simulated time.

Modelling conventions:
- Python floats are idealised as exact numbers: geometry (latitudes,
  distances, altitudes) uses `ℝ` because `math.sqrt` and `math.atan2`
  appear there; simulated-time bookkeeping in the purely comparative
  loops (`wait_mode`, `wait_ekf_happy`, `wait_waypoint`) uses `ℚ`, so
  those loops stay fully computable.
- Each blocking telemetry read of one loop iteration is one record of
  an input trace (a `List`).  A wait function returns `none` when the
  trace is exhausted while the loop would still be polling (in the
  source the call would still be blocked on the stream), and `some r`
  when the loop exits with result `r`.
- `self.progress(...)` calls are output only and are not modelled.
-/

/-- A geodetic location as produced by `mavutil.location` /
`self.mav.location()`: latitude, longitude (degrees), altitude,
heading. -/
structure Location where
  lat : ℝ
  lng : ℝ
  alt : ℝ
  heading : ℝ

/-- The two-argument arctangent, modelling Python `math.atan2 y x`: the
argument of the complex number `x + y*i`, lying in `(-π, π]`, with
`atan2 0 0 = 0` exactly as in Python. -/
noncomputable def atan2 (y x : ℝ) : ℝ :=
  Complex.arg (Complex.ofReal x + Complex.ofReal y * Complex.I)

/-- `AutoTest.get_distance`: flat-earth ground distance in metres
between two locations. -/
noncomputable def get_distance (loc1 loc2 : Location) : ℝ :=
  let dlat := loc2.lat - loc1.lat
  let dlong := loc2.lng - loc1.lng
  Real.sqrt (dlat * dlat + dlong * dlong) * 1.113195e5

/-- `AutoTest.get_bearing`: bearing from `loc1` to `loc2` in degrees,
normalised by adding 360 when negative. -/
noncomputable def get_bearing (loc1 loc2 : Location) : ℝ :=
  let off_x := loc2.lng - loc1.lng
  let off_y := loc2.lat - loc1.lat
  let bearing := 90.00 + atan2 (-off_y) off_x * 57.2957795
  if bearing < 0 then bearing + 360.00 else bearing

/-- `AutoTest.wait_distance`: the loop body, one iteration per
`(sim-time, position)` poll record.  `tstart` is the sim time read on
entry and `start` the position read on entry. -/
noncomputable def wait_distance (distance accuracy timeout tstart : ℝ)
    (start : Location) : List (ℝ × Location) → Option Bool
  | [] => none
  | (t, pos) :: rest =>
    if t < tstart + timeout then
      let delta := get_distance start pos
      if |delta - distance| ≤ accuracy then some true
      else if delta > distance + accuracy then some false
      else wait_distance distance accuracy timeout tstart start rest
    else some false

/-- The polling loop of `AutoTest.wait_location`, with the target
altitude already resolved.  When the horizontal check passes but the
height refinement fails, the source executes `continue`, i.e. the loop
keeps polling. -/
noncomputable def wait_location_loop (loc : Location)
    (accuracy timeout target_altitude height_accuracy tstart : ℝ) :
    List (ℝ × Location) → Option Bool
  | [] => none
  | (t, pos) :: rest =>
    if t < tstart + timeout then
      let delta := get_distance loc pos
      if delta ≤ accuracy then
        if height_accuracy ≠ -1 ∧ |pos.alt - target_altitude| > height_accuracy then
          wait_location_loop loc accuracy timeout target_altitude height_accuracy
            tstart rest
        else some true
      else
        wait_location_loop loc accuracy timeout target_altitude height_accuracy
          tstart rest
    else some false

/-- `AutoTest.wait_location`: a `None` target altitude defaults to the
altitude of the target location itself before the loop starts. -/
noncomputable def wait_location (loc : Location) (accuracy timeout : ℝ)
    (target_altitude : Option ℝ) (height_accuracy : ℝ) (tstart : ℝ)
    (polls : List (ℝ × Location)) : Option Bool :=
  wait_location_loop loc accuracy timeout
    (match target_altitude with
     | none => loc.alt
     | some a => a)
    height_accuracy tstart polls

/-- Python `str.upper()` as used by `wait_mode`, character by
character on the underlying characters (the library `String.toUpper`
is the same map but does not reduce definitionally, so this keeps the
loop evaluable). -/
def upperStr (s : String) : List Char :=
  s.data.map Char.toUpper

/-- The polling loop of `AutoTest.wait_mode`.  Loop state: the
`hastimeout` flag and the flight mode most recently reported by
`self.mav`.  Each poll record holds the sim time read when a timeout is
configured, and the flight mode after `wait_heartbeat`.  On exit the
source returns `self.mav.flightmode`, a string. -/
def wait_mode_loop (mode : String) (timeout : Option ℚ) (tstart : ℚ) :
    Bool → String → List (ℚ × String) → Option String
  | hastimeout, fm, [] =>
    if upperStr fm ≠ upperStr mode ∧ hastimeout = false then none else some fm
  | hastimeout, fm, (t, f) :: rest =>
    if upperStr fm ≠ upperStr mode ∧ hastimeout = false then
      wait_mode_loop mode timeout tstart
        (match timeout with
         | none => hastimeout
         | some tmo => decide (t > tstart + tmo))
        f rest
    else some fm

/-- `AutoTest.wait_mode`: `fm0` is the flight mode reported at entry,
`tstart` the sim time read at entry; `hastimeout` starts `false`. -/
def wait_mode (mode : String) (timeout : Option ℚ) (tstart : ℚ)
    (fm0 : String) (polls : List (ℚ × String)) : Option String :=
  wait_mode_loop mode timeout tstart false fm0 polls

/-- The exception raised by the EKF-readiness wait on timeout. -/
inductive AutoTestTimeoutException where
  | mk
deriving DecidableEq

/-- The fixed healthy EKF flags constant of `AutoTest.wait_ekf_happy`. -/
def required_value : ℕ := 831

/-- One poll of `wait_ekf_happy`: the sim time read at the loop head and
the `flags` field of the next `EKF_STATUS_REPORT`.  The second
`get_sim_time` call of each iteration only feeds progress output and is
not modelled. -/
structure EkfPoll where
  t : ℚ
  flags : ℕ
deriving DecidableEq

/-- `AutoTest.wait_ekf_happy`: returns normally (`Except.ok`) when a
sample with `flags == required_value` arrives in time, raises
`AutoTestTimeoutException` (`Except.error`) when the sim-time timeout
elapses first; with `timeout = none` the loop head never consults the
clock. -/
def wait_ekf_happy (timeout : Option ℚ) (tstart : ℚ) :
    List EkfPoll → Option (Except AutoTestTimeoutException Unit)
  | [] => none
  | p :: rest =>
    if (match timeout with
        | none => true
        | some tmo => decide (p.t < tstart + tmo)) = true then
      if p.flags = required_value then some (Except.ok ())
      else wait_ekf_happy timeout tstart rest
    else some (Except.error AutoTestTimeoutException.mk)

/-- One poll of `wait_waypoint`: sim time at the loop head, the reported
current waypoint sequence, `NAV_CONTROLLER_OUTPUT.wp_dist`, the current
flight mode, and the sim time that would be read by the timeout-clock
reset on advancement. -/
structure WpPoll where
  t : ℚ
  seq : ℕ
  wp_dist : ℕ
  flightmode : String
  t2 : ℚ

/-- The polling loop of `AutoTest.wait_waypoint`.  Loop state: `tstart`
(the per-leg timeout clock) and `current_wp` (the tracked waypoint).
On advancement the source sets `tstart = self.get_sim_time()` (here
`p.t2`) and `current_wp = seq` before the arrival, sentinel and skip
checks of the same iteration. -/
def wait_waypoint_loop (wpnum_end : ℕ) (allow_skip : Bool) (max_dist : ℕ)
    (timeout : ℚ) (mode : String) :
    ℚ → ℕ → List WpPoll → Option Bool
  | _, _, [] => none
  | tstart, current_wp, p :: rest =>
    if p.t < tstart + timeout then
      if p.flightmode ≠ mode then some false
      else
        let advance : Bool :=
          decide (p.seq = current_wp + 1) ||
            (decide (p.seq > current_wp + 1) && allow_skip)
        let tstart2 := if advance then p.t2 else tstart
        let current_wp2 := if advance then p.seq else current_wp
        if current_wp2 = wpnum_end ∧ p.wp_dist < max_dist then some true
        else if p.seq ≥ 255 then some true
        else if p.seq > current_wp2 + 1 then some false
        else wait_waypoint_loop wpnum_end allow_skip max_dist timeout mode
          tstart2 current_wp2 rest
    else some false

/-- `AutoTest.wait_waypoint`: `tstart` is the sim time read at entry,
`start_wp` the waypoint sequence reported by the vehicle at entry
(`self.mav.waypoint_current()`), `mode` the flight mode at entry.  The
`wpnum_start` argument only appears in progress output in the source
(the check against it is commented out), so it does not reach the
loop. -/
def wait_waypoint (wpnum_start wpnum_end : ℕ) (allow_skip : Bool)
    (max_dist : ℕ) (timeout : ℚ) (tstart : ℚ) (start_wp : ℕ)
    (mode : String) (polls : List WpPoll) : Option Bool :=
  wait_waypoint_loop wpnum_end allow_skip max_dist timeout mode
    tstart start_wp polls

/-! ### Helper lemmas about one `wait_waypoint` loop iteration -/

lemma ww_step_timeout (e : ℕ) (sk : Bool) (md : ℕ) (tmo : ℚ) (mo : String)
    (ts : ℚ) (cw : ℕ) (p : WpPoll) (rest : List WpPoll)
    (h : ¬ p.t < ts + tmo) :
    wait_waypoint_loop e sk md tmo mo ts cw (p :: rest) = some false := by
  simp [wait_waypoint_loop, h]

lemma ww_step_mode (e : ℕ) (sk : Bool) (md : ℕ) (tmo : ℚ) (mo : String)
    (ts : ℚ) (cw : ℕ) (p : WpPoll) (rest : List WpPoll)
    (ht : p.t < ts + tmo) (hm : p.flightmode ≠ mo) :
    wait_waypoint_loop e sk md tmo mo ts cw (p :: rest) = some false := by
  simp [wait_waypoint_loop, ht, hm]

lemma ww_step_advance (e : ℕ) (sk : Bool) (md : ℕ) (tmo : ℚ) (mo : String)
    (ts : ℚ) (cw : ℕ) (p : WpPoll) (rest : List WpPoll)
    (ht : p.t < ts + tmo) (hm : p.flightmode = mo)
    (hadv : p.seq = cw + 1 ∨ (p.seq > cw + 1 ∧ sk = true)) :
    wait_waypoint_loop e sk md tmo mo ts cw (p :: rest) =
      if p.seq = e ∧ p.wp_dist < md then some true
      else if p.seq ≥ 255 then some true
      else wait_waypoint_loop e sk md tmo mo p.t2 p.seq rest := by
  have hb : (decide (p.seq = cw + 1) ||
      (decide (p.seq > cw + 1) && sk)) = true := by
    rcases hadv with h | ⟨h, hs⟩
    · simp [h]
    · simp [h, hs]
  have hns : ¬ p.seq > p.seq + 1 := by omega
  simp [wait_waypoint_loop, ht, hm, hb, hns]

lemma ww_step_skip_fail (e : ℕ) (md : ℕ) (tmo : ℚ) (mo : String)
    (ts : ℚ) (cw : ℕ) (p : WpPoll) (rest : List WpPoll)
    (ht : p.t < ts + tmo) (hm : p.flightmode = mo) (hgt : p.seq > cw + 1)
    (harr : ¬(cw = e ∧ p.wp_dist < md)) (hs : p.seq < 255) :
    wait_waypoint_loop e false md tmo mo ts cw (p :: rest) = some false := by
  have hne : ¬ p.seq = cw + 1 := by omega
  have h255 : ¬ p.seq ≥ 255 := by omega
  simp [wait_waypoint_loop, ht, hm, hne, hgt, harr, h255]

/-! ### Claim C9 -/

/-- Claim C9: the result of `wait_waypoint` is independent of its
`wpnum_start` argument — two calls differing only in `wpnum_start`,
observing the same entry state and telemetry trace, return the same
value, because the tracked waypoint starts from the vehicle's reported
current waypoint and `wpnum_start` feeds no decision. -/
theorem wait_waypoint_wpnum_start_irrelevant :
    ∀ (s1 s2 e : ℕ) (sk : Bool) (md : ℕ) (tmo ts : ℚ) (swp : ℕ)
      (mo : String) (polls : List WpPoll),
      wait_waypoint s1 e sk md tmo ts swp mo polls =
        wait_waypoint s2 e sk md tmo ts swp mo polls := by
  intro s1 s2 e sk md tmo ts swp mo polls
  rfl

/-- Closed instance of claim C9 at a concrete input. -/
theorem wait_waypoint_wpnum_start_irrelevant_witness :
    wait_waypoint 0 5 true 2 400 0 0 "AUTO"
        [⟨1, 1, 0, "AUTO", 1⟩] =
      wait_waypoint 7 5 true 2 400 0 0 "AUTO"
        [⟨1, 1, 0, "AUTO", 1⟩] :=
  wait_waypoint_wpnum_start_irrelevant 0 7 5 true 2 400 0 0 "AUTO"
    [⟨1, 1, 0, "AUTO", 1⟩]

/-! ### Claim C8 -/

/-- Claim C8 counterexample: at the concrete location `(0,0,0,0)`, the
source `get_bearing` applied to identical locations returns 90 (since
`atan2(0,0) = 0` so the computed bearing is `90 + 0`), not 0 as the
claim states. -/
theorem get_bearing_self_cex :
    get_bearing ⟨0, 0, 0, 0⟩ ⟨0, 0, 0, 0⟩ = 90 ∧ (90 : ℝ) ≠ 0 := by
  constructor
  · simp only [get_bearing, atan2]
    norm_num [Complex.arg_zero]
  · norm_num

/-- Claim C8 (amended): for every location `a`, `get_distance a a`
returns 0, and `get_bearing a a` returns 90 — not 0 — because
`atan2(0,0) = 0` makes the computed bearing `90 + 0`, which is
nonnegative and therefore returned unchanged. -/
theorem get_distance_bearing_self :
    ∀ a : Location, get_distance a a = 0 ∧ get_bearing a a = 90 := by
  intro a
  constructor
  · simp [get_distance]
  · simp only [get_bearing, atan2, sub_self]
    norm_num [Complex.arg_zero]

/-! ### Claim C4 -/

/-- Claim C4: during any `wait_waypoint` call, at every poll iteration
whose reported flight mode differs from the mode recorded at entry, the
wait returns `false` on that very iteration, before the advancement,
arrival and sentinel checks run — whatever the current waypoint
sequence, distance or remaining trace, even if the same sample would
have satisfied arrival. -/
theorem wait_waypoint_mode_exit_immediate :
    ∀ (e : ℕ) (sk : Bool) (md : ℕ) (tmo : ℚ) (mo : String) (ts : ℚ)
      (cw : ℕ) (p : WpPoll) (rest : List WpPoll),
      p.t < ts + tmo → p.flightmode ≠ mo →
      wait_waypoint_loop e sk md tmo mo ts cw (p :: rest) = some false := by
  intro e sk md tmo mo ts cw p rest ht hm
  exact ww_step_mode e sk md tmo mo ts cw p rest ht hm

/-- Closed instance of claim C4: the sample would have satisfied
arrival (`seq = wpnum_end` and `wp_dist < max_dist`), still the mode
change makes the iteration fail. -/
theorem wait_waypoint_mode_exit_immediate_witness :
    wait_waypoint_loop 5 true 2 400 "AUTO" 0 4
      [⟨1, 5, 0, "RTL", 1⟩] = some false :=
  wait_waypoint_mode_exit_immediate 5 true 2 400 "AUTO" 0 4
    ⟨1, 5, 0, "RTL", 1⟩ [] (by norm_num) (by decide)

/-! ### Claim C5 -/

/-- The reported waypoint-sequence stream `1, 2, 3, 5` of claim C5: the
vehicle skips from waypoint 3 to waypoint 5; only the final poll is
within `max_dist` of its waypoint. -/
def c5polls : List WpPoll :=
  [⟨1, 1, 10, "AUTO", 1⟩, ⟨2, 2, 10, "AUTO", 2⟩,
   ⟨3, 3, 10, "AUTO", 3⟩, ⟨4, 5, 0, "AUTO", 4⟩]

/-- Claim C5: when `seq = current_wp + 1`, or `seq > current_wp + 1`
with skipping allowed, the tracked waypoint advances to `seq` (the loop
continues from `current_wp = seq`); when `seq > current_wp + 1` with
skipping forbidden, the iteration returns `false`.  Concretely, the
sequence stream `[1,2,3,5]` with end waypoint 5 succeeds when
`allow_skip = true` and fails at the 3 to 5 transition when
`allow_skip = false`. -/
theorem wait_waypoint_skip_semantics :
    (∀ (e : ℕ) (sk : Bool) (md : ℕ) (tmo : ℚ) (mo : String) (ts : ℚ)
        (cw : ℕ) (p : WpPoll) (rest : List WpPoll),
        p.t < ts + tmo → p.flightmode = mo →
        (p.seq = cw + 1 ∨ (p.seq > cw + 1 ∧ sk = true)) →
        ¬(p.seq = e ∧ p.wp_dist < md) → p.seq < 255 →
        wait_waypoint_loop e sk md tmo mo ts cw (p :: rest) =
          wait_waypoint_loop e sk md tmo mo p.t2 p.seq rest) ∧
    (∀ (e md : ℕ) (tmo : ℚ) (mo : String) (ts : ℚ) (cw : ℕ)
        (p : WpPoll) (rest : List WpPoll),
        p.t < ts + tmo → p.flightmode = mo → p.seq > cw + 1 →
        ¬(cw = e ∧ p.wp_dist < md) → p.seq < 255 →
        wait_waypoint_loop e false md tmo mo ts cw (p :: rest) =
          some false) ∧
    wait_waypoint 0 5 true 2 400 0 0 "AUTO" c5polls = some true ∧
    wait_waypoint 0 5 false 2 400 0 0 "AUTO" c5polls = some false := by
  refine ⟨?_, ?_,
    by norm_num [wait_waypoint, wait_waypoint_loop, c5polls],
    by norm_num [wait_waypoint, wait_waypoint_loop, c5polls]⟩
  · intro e sk md tmo mo ts cw p rest ht hm hadv harr hs
    rw [ww_step_advance e sk md tmo mo ts cw p rest ht hm hadv,
      if_neg harr, if_neg (by omega : ¬ p.seq ≥ 255)]
  · intro e md tmo mo ts cw p rest ht hm hgt harr hs
    exact ww_step_skip_fail e md tmo mo ts cw p rest ht hm hgt harr hs

/-- Closed instance of claim C5: a single in-time poll that skips ahead
with `allow_skip = false` fails. -/
theorem wait_waypoint_skip_semantics_witness :
    wait_waypoint_loop 5 false 2 400 "AUTO" 0 3
      [⟨4, 5, 10, "AUTO", 4⟩] = some false :=
  wait_waypoint_skip_semantics.2.1 5 2 400 "AUTO" 0 3
    ⟨4, 5, 10, "AUTO", 4⟩ [] (by norm_num) (by decide) (by decide)
    (by decide) (by decide)

/-! ### Claim C6 -/

/-- A mission trace of `k + 1` legs used for claim C6: starting from
tracked waypoint `wp` at sim time `t`, each leg takes 399 simulated
seconds (just under the per-leg timeout of 400) and advances the
reported sequence by one; only the final poll is within `max_dist`. -/
def legPolls (wp : ℕ) (t : ℚ) : ℕ → List WpPoll
  | 0 => [⟨t + 399, wp + 1, 0, "AUTO", t + 399⟩]
  | k + 1 =>
    ⟨t + 399, wp + 1, 100, "AUTO", t + 399⟩ ::
      legPolls (wp + 1) (t + 399) k

lemma legPolls_success : ∀ (k wp : ℕ) (t : ℚ),
    wait_waypoint_loop (wp + (k + 1)) true 2 400 "AUTO" t wp
      (legPolls wp t k) = some true := by
  intro k
  induction k with
  | zero =>
    intro wp t
    have h := ww_step_advance (wp + (0 + 1)) true 2 400 "AUTO" t wp
      ⟨t + 399, wp + 1, 0, "AUTO", t + 399⟩ []
      (by show t + 399 < t + 400; linarith) rfl (Or.inl rfl)
    simp only [legPolls]
    rw [h]
    norm_num
  | succ k ih =>
    intro wp t
    have h := ww_step_advance (wp + (k + 1 + 1)) true 2 400 "AUTO" t wp
      ⟨t + 399, wp + 1, 100, "AUTO", t + 399⟩
      (legPolls (wp + 1) (t + 399) k)
      (by show t + 399 < t + 400; linarith) rfl (Or.inl rfl)
    simp only [legPolls]
    rw [h]
    norm_num
    intro _
    have heq : wp + (k + 1 + 1) = (wp + 1) + (k + 1) := by omega
    rw [heq]
    exact ih (wp + 1) (t + 399)

lemma legPolls_last_time : ∀ (k wp : ℕ) (t : ℚ),
    ∃ p ∈ legPolls wp t k, p.t = t + 399 * ((k : ℚ) + 1) := by
  intro k
  induction k with
  | zero =>
    intro wp t
    exact ⟨_, List.mem_cons_self _ _, by push_cast; ring⟩
  | succ k ih =>
    intro wp t
    obtain ⟨p, hp, hpt⟩ := ih (wp + 1) (t + 399)
    refine ⟨p, List.mem_cons_of_mem _ hp, ?_⟩
    rw [hpt]; push_cast; ring

/-- Claim C6: `wait_waypoint` bounds time per mission leg, not total
mission time.  On every advancement the timeout clock restarts at the
freshly read sim time (`p.t2`), so a mission of `k + 1` legs, each
completing in 399 simulated seconds against a 400-second timeout,
always succeeds — even though for `k ≥ 1` the trace extends past the
single global deadline `t + 400`. -/
theorem wait_waypoint_per_leg_timeout :
    (∀ (e : ℕ) (sk : Bool) (md : ℕ) (tmo : ℚ) (mo : String) (ts : ℚ)
        (cw : ℕ) (p : WpPoll) (rest : List WpPoll),
        p.t < ts + tmo → p.flightmode = mo →
        (p.seq = cw + 1 ∨ (p.seq > cw + 1 ∧ sk = true)) →
        ¬(p.seq = e ∧ p.wp_dist < md) → p.seq < 255 →
        wait_waypoint_loop e sk md tmo mo ts cw (p :: rest) =
          wait_waypoint_loop e sk md tmo mo p.t2 p.seq rest) ∧
    (∀ (wp : ℕ) (t : ℚ) (k : ℕ),
        wait_waypoint 0 (wp + (k + 1)) true 2 400 t wp "AUTO"
          (legPolls wp t k) = some true) ∧
    (∀ (wp : ℕ) (t : ℚ) (k : ℕ), 1 ≤ k →
        ∃ p ∈ legPolls wp t k, t + 400 < p.t) := by
  refine ⟨?_, ?_, ?_⟩
  · intro e sk md tmo mo ts cw p rest ht hm hadv harr hs
    rw [ww_step_advance e sk md tmo mo ts cw p rest ht hm hadv,
      if_neg harr, if_neg (by omega : ¬ p.seq ≥ 255)]
  · intro wp t k
    exact legPolls_success k wp t
  · intro wp t k hk
    obtain ⟨p, hp, hpt⟩ := legPolls_last_time k wp t
    refine ⟨p, hp, ?_⟩
    rw [hpt]
    have hk1 : (1 : ℚ) ≤ (k : ℚ) := by exact_mod_cast hk
    nlinarith

/-- Closed instance of claim C6: a three-leg mission taking 1197
simulated seconds in total succeeds against the 400-second per-leg
timeout, and its trace reaches past the global deadline `0 + 400`. -/
theorem wait_waypoint_per_leg_timeout_witness :
    wait_waypoint 0 3 true 2 400 0 0 "AUTO" (legPolls 0 0 2) =
        some true ∧
      ∃ p ∈ legPolls 0 0 2, (0 : ℚ) + 400 < p.t :=
  ⟨wait_waypoint_per_leg_timeout.2.1 0 0 2,
    wait_waypoint_per_leg_timeout.2.2 0 0 2 (by norm_num)⟩

/-! ### Claim C1 -/

/-- Claim C1 counterexample: a concrete `wait_mode` run whose timeout
elapses (sim time 31 against deadline 0 + 30) while the reported mode
stays "MANUAL", case-insensitively different from the target "AUTO".
The call returns `some "MANUAL"` — the reported flight-mode string, a
nonempty (hence truthy) value that does not match the target — not the
boolean `false` the claim demands. -/
theorem wait_mode_not_boolean_cex :
    wait_mode "AUTO" (some 30) 0 "MANUAL" [(31, "MANUAL")] =
        some "MANUAL" ∧
      "MANUAL" ≠ "" ∧ upperStr "MANUAL" ≠ upperStr "AUTO" := by
  have h1 : upperStr "MANUAL" ≠ upperStr "AUTO" := by decide
  have h2 : (decide ((31 : ℚ) > 0 + 30)) = true := by
    rw [decide_eq_true_eq]; norm_num
  refine ⟨?_, by decide, h1⟩
  simp [wait_mode, wait_mode_loop, h1, h2]
  norm_num

/-- Claim C1 (amended): `wait_mode` returns the reported flight-mode
string rather than a boolean: when the reported mode case-insensitively
matches the target it returns immediately with that mode string, and
when the configured timeout elapses before the mode is attained it
returns the flight mode delivered by the next heartbeat — whatever
string that is — rather than `false`. -/
theorem wait_mode_returns_flightmode :
    (∀ (mode : String) (timeout : Option ℚ) (tstart : ℚ) (fm : String)
        (polls : List (ℚ × String)),
        upperStr fm = upperStr mode →
        wait_mode mode timeout tstart fm polls = some fm) ∧
    (∀ (mode : String) (tmo tstart : ℚ) (fm0 f1 : String) (t1 : ℚ)
        (rest : List (ℚ × String)),
        upperStr fm0 ≠ upperStr mode → t1 > tstart + tmo →
        wait_mode mode (some tmo) tstart fm0 ((t1, f1) :: rest) =
          some f1) := by
  constructor
  · intro mode timeout tstart fm polls h
    cases polls <;> simp [wait_mode, wait_mode_loop, h]
  · intro mode tmo tstart fm0 f1 t1 rest h ht
    have hd : (decide (t1 > tstart + tmo)) = true := by
      rw [decide_eq_true_eq]; exact ht
    cases rest <;> simp [wait_mode, wait_mode_loop, h, hd]

/-- Closed instance of claim C1 (amended): an attained-mode run returns
the (differently cased) mode string, and a timed-out run returns the
mode string of the last heartbeat. -/
theorem wait_mode_returns_flightmode_witness :
    wait_mode "AUTO" (some 30) 0 "auto" [] = some "auto" ∧
      wait_mode "GUIDED" (some 30) 0 "MANUAL" [(31, "LOITER")] =
        some "LOITER" :=
  ⟨wait_mode_returns_flightmode.1 "AUTO" (some 30) 0 "auto" [] (by decide),
    wait_mode_returns_flightmode.2 "GUIDED" 30 0 "MANUAL" "LOITER" 31 []
      (by decide) (by norm_num)⟩

/-! ### Claim C2 -/

/-- Claim C2: one `wait_distance` iteration is decided by the measured
distance of its sample alone — an in-time sample within `accuracy` of
the target distance returns `true` at once; an in-time sample beyond
`distance + accuracy` (overshoot, so the success window was skipped)
returns `false` at once, without consuming the remaining timeout
budget; any other in-time sample leaves the wait polling; and an
out-of-time sample returns `false`. -/
theorem wait_distance_first_sample :
    (∀ (d acc tmo ts : ℝ) (start : Location) (t : ℝ) (pos : Location)
        (rest : List (ℝ × Location)),
        t < ts + tmo → |get_distance start pos - d| ≤ acc →
        wait_distance d acc tmo ts start ((t, pos) :: rest) =
          some true) ∧
    (∀ (d acc tmo ts : ℝ) (start : Location) (t : ℝ) (pos : Location)
        (rest : List (ℝ × Location)),
        t < ts + tmo → get_distance start pos > d + acc →
        wait_distance d acc tmo ts start ((t, pos) :: rest) =
          some false) ∧
    (∀ (d acc tmo ts : ℝ) (start : Location) (t : ℝ) (pos : Location)
        (rest : List (ℝ × Location)),
        t < ts + tmo → ¬ |get_distance start pos - d| ≤ acc →
        ¬ get_distance start pos > d + acc →
        wait_distance d acc tmo ts start ((t, pos) :: rest) =
          wait_distance d acc tmo ts start rest) ∧
    (∀ (d acc tmo ts : ℝ) (start : Location) (t : ℝ) (pos : Location)
        (rest : List (ℝ × Location)),
        ¬ t < ts + tmo →
        wait_distance d acc tmo ts start ((t, pos) :: rest) =
          some false) := by
  refine ⟨?_, ?_, ?_, ?_⟩
  · intro d acc tmo ts start t pos rest ht hs
    simp [wait_distance, ht, hs]
  · intro d acc tmo ts start t pos rest ht hov
    have hno : ¬ |get_distance start pos - d| ≤ acc := by
      intro hc
      rw [abs_le] at hc
      linarith
    simp [wait_distance, ht, hno, hov]
  · intro d acc tmo ts start t pos rest ht hs hov
    simp [wait_distance, ht, hs, hov]
  · intro d acc tmo ts start t pos rest ht
    simp [wait_distance, ht]

/-- Closed instance of claim C2: with start `(0,0)`, a sample at
longitude offset 2 measures exactly the target distance 222639 and
succeeds; a sample at offset 3 measures 333958.5, beyond
`distance + accuracy`, and fails immediately. -/
theorem wait_distance_first_sample_witness :
    wait_distance 222639 5 30 0 ⟨0, 0, 0, 0⟩ [(1, ⟨0, 2, 0, 0⟩)] =
        some true ∧
      wait_distance 222639 5 30 0 ⟨0, 0, 0, 0⟩ [(1, ⟨0, 3, 0, 0⟩)] =
        some false := by
  have hd2 : get_distance ⟨0, 0, 0, 0⟩ ⟨0, 2, 0, 0⟩ = 222639 := by
    show Real.sqrt ((0 - 0) * (0 - 0) + (2 - 0) * (2 - 0)) * 1.113195e5 =
      222639
    rw [show ((0 : ℝ) - 0) * (0 - 0) + (2 - 0) * (2 - 0) = 2 ^ 2 by
      norm_num]
    rw [Real.sqrt_sq (by norm_num : (0 : ℝ) ≤ 2)]
    norm_num
  have hd3 : get_distance ⟨0, 0, 0, 0⟩ ⟨0, 3, 0, 0⟩ = 333958.5 := by
    show Real.sqrt ((0 - 0) * (0 - 0) + (3 - 0) * (3 - 0)) * 1.113195e5 =
      333958.5
    rw [show ((0 : ℝ) - 0) * (0 - 0) + (3 - 0) * (3 - 0) = 3 ^ 2 by
      norm_num]
    rw [Real.sqrt_sq (by norm_num : (0 : ℝ) ≤ 3)]
    norm_num
  refine ⟨wait_distance_first_sample.1 222639 5 30 0 ⟨0, 0, 0, 0⟩ 1
      ⟨0, 2, 0, 0⟩ [] (by norm_num) ?_,
    wait_distance_first_sample.2.1 222639 5 30 0 ⟨0, 0, 0, 0⟩ 1
      ⟨0, 3, 0, 0⟩ [] (by norm_num) ?_⟩
  · rw [hd2, sub_self, abs_zero]; norm_num
  · rw [hd3]; norm_num

/-! ### Claim C7 -/

/-- Claim C7: one `wait_location` iteration (with an explicit target
altitude) succeeds exactly when the horizontal distance to the target
is within `accuracy` and the height refinement is disabled (`-1`) or
satisfied; an in-time sample passing horizontally but failing the
height refinement leaves the wait polling (neither success nor
failure), as does one failing horizontally; an out-of-time sample
returns `false` (timeout). -/
theorem wait_location_arrival_semantics :
    (∀ (loc : Location) (acc tmo ta ha ts t : ℝ) (pos : Location)
        (rest : List (ℝ × Location)),
        t < ts + tmo → get_distance loc pos ≤ acc →
        ¬(ha ≠ -1 ∧ |pos.alt - ta| > ha) →
        wait_location loc acc tmo (some ta) ha ts ((t, pos) :: rest) =
          some true) ∧
    (∀ (loc : Location) (acc tmo ta ha ts t : ℝ) (pos : Location)
        (rest : List (ℝ × Location)),
        t < ts + tmo → get_distance loc pos ≤ acc →
        ha ≠ -1 → |pos.alt - ta| > ha →
        wait_location loc acc tmo (some ta) ha ts ((t, pos) :: rest) =
          wait_location loc acc tmo (some ta) ha ts rest) ∧
    (∀ (loc : Location) (acc tmo ta ha ts t : ℝ) (pos : Location)
        (rest : List (ℝ × Location)),
        t < ts + tmo → ¬ get_distance loc pos ≤ acc →
        wait_location loc acc tmo (some ta) ha ts ((t, pos) :: rest) =
          wait_location loc acc tmo (some ta) ha ts rest) ∧
    (∀ (loc : Location) (acc tmo ta ha ts t : ℝ) (pos : Location)
        (rest : List (ℝ × Location)),
        ¬ t < ts + tmo →
        wait_location loc acc tmo (some ta) ha ts ((t, pos) :: rest) =
          some false) := by
  refine ⟨?_, ?_, ?_, ?_⟩
  · intro loc acc tmo ta ha ts t pos rest ht hdist hh
    simp [wait_location, wait_location_loop, ht, hdist, hh]
  · intro loc acc tmo ta ha ts t pos rest ht hdist hne hfar
    simp [wait_location, wait_location_loop, ht, hdist, hne, hfar]
  · intro loc acc tmo ta ha ts t pos rest ht hdist
    simp [wait_location, wait_location_loop, ht, hdist]
  · intro loc acc tmo ta ha ts t pos rest ht
    simp [wait_location, wait_location_loop, ht]

/-- Closed instance of claim C7: an in-time sample at the target point
(horizontal distance 0) with the height refinement disabled succeeds. -/
theorem wait_location_arrival_semantics_witness :
    wait_location ⟨0, 0, 100, 0⟩ 5 30 (some 100) (-1) 0
      [(1, ⟨0, 0, 77, 0⟩)] = some true := by
  have hd : get_distance ⟨0, 0, 100, 0⟩ ⟨0, 0, 77, 0⟩ = 0 := by
    show Real.sqrt ((0 - 0) * (0 - 0) + (0 - 0) * (0 - 0)) * 1.113195e5 = 0
    rw [show ((0 : ℝ) - 0) * (0 - 0) + (0 - 0) * (0 - 0) = 0 by norm_num,
      Real.sqrt_zero]
    norm_num
  exact wait_location_arrival_semantics.1 ⟨0, 0, 100, 0⟩ 5 30 100 (-1) 0 1
    ⟨0, 0, 77, 0⟩ [] (by norm_num) (by rw [hd]; norm_num) (by simp)

/-! ### Claim C10 -/

/-- Claim C10: calling `wait_location` with the target altitude omitted
behaves exactly as calling it with the altitude of the target location
itself, so an enabled `height_accuracy` still constrains vertical
distance, measured against `loc.alt` — in particular a sample passing
horizontally but with `|pos.alt - loc.alt| > height_accuracy` keeps the
wait polling. -/
theorem wait_location_default_target_altitude :
    (∀ (loc : Location) (acc tmo ha ts : ℝ)
        (polls : List (ℝ × Location)),
        wait_location loc acc tmo none ha ts polls =
          wait_location loc acc tmo (some loc.alt) ha ts polls) ∧
    (∀ (loc : Location) (acc tmo ha ts t : ℝ) (pos : Location)
        (rest : List (ℝ × Location)),
        t < ts + tmo → get_distance loc pos ≤ acc → ha ≠ -1 →
        |pos.alt - loc.alt| > ha →
        wait_location loc acc tmo none ha ts ((t, pos) :: rest) =
          wait_location loc acc tmo none ha ts rest) := by
  constructor
  · intro loc acc tmo ha ts polls
    rfl
  · intro loc acc tmo ha ts t pos rest ht hdist hne hfar
    simp [wait_location, wait_location_loop, ht, hdist, hne, hfar]

/-- Closed instance of claim C10: with the target altitude omitted and
`height_accuracy = 1`, a sample at the target point but 50 below the
target location altitude keeps the wait polling. -/
theorem wait_location_default_target_altitude_witness :
    wait_location ⟨0, 0, 100, 0⟩ 5 30 none 1 0 [(1, ⟨0, 0, 50, 0⟩)] =
      wait_location ⟨0, 0, 100, 0⟩ 5 30 none 1 0 [] := by
  have hd : get_distance ⟨0, 0, 100, 0⟩ ⟨0, 0, 50, 0⟩ = 0 := by
    show Real.sqrt ((0 - 0) * (0 - 0) + (0 - 0) * (0 - 0)) * 1.113195e5 = 0
    rw [show ((0 : ℝ) - 0) * (0 - 0) + (0 - 0) * (0 - 0) = 0 by norm_num,
      Real.sqrt_zero]
    norm_num
  have habs : |(50 : ℝ) - 100| > 1 := by
    rw [abs_sub_comm, show (100 : ℝ) - 50 = 50 by norm_num,
      abs_of_nonneg (by norm_num : (0 : ℝ) ≤ 50)]
    norm_num
  exact wait_location_default_target_altitude.2 ⟨0, 0, 100, 0⟩ 5 30 1 0 1
    ⟨0, 0, 50, 0⟩ [] (by norm_num) (by rw [hd]; norm_num) (by norm_num)
    habs

/-! ### Claim C3 -/

lemma wait_ekf_error_iff (tmo tstart : ℚ) :
    ∀ polls : List EkfPoll,
      wait_ekf_happy (some tmo) tstart polls =
          some (Except.error AutoTestTimeoutException.mk) ↔
        ∃ pre p post, polls = pre ++ p :: post ∧
          (∀ q ∈ pre, q.t < tstart + tmo ∧ q.flags ≠ required_value) ∧
          ¬ p.t < tstart + tmo := by
  intro polls
  induction polls with
  | nil =>
    constructor
    · intro h
      simp [wait_ekf_happy] at h
    · rintro ⟨pre, p, post, hsplit, -, -⟩
      exact absurd hsplit (by simp)
  | cons q rest ih =>
    by_cases hq : q.t < tstart + tmo
    · have hunfold : wait_ekf_happy (some tmo) tstart (q :: rest) =
          (if q.flags = required_value then some (Except.ok ())
           else wait_ekf_happy (some tmo) tstart rest) := by
        simp [wait_ekf_happy, hq]
      by_cases hf : q.flags = required_value
      · rw [hunfold, if_pos hf]
        constructor
        · intro h
          simp at h
        · rintro ⟨pre, p, post, hsplit, hpre, hp⟩
          cases pre with
          | nil =>
            rw [List.nil_append] at hsplit
            injection hsplit with h1 h2
            exact absurd (h1 ▸ hq) hp
          | cons a pre2 =>
            rw [List.cons_append] at hsplit
            injection hsplit with h1 h2
            have ha := hpre a (List.mem_cons_self a pre2)
            exact (ha.2 (h1 ▸ hf)).elim
      · rw [hunfold, if_neg hf, ih]
        constructor
        · rintro ⟨pre, p, post, hsplit, hpre, hp⟩
          refine ⟨q :: pre, p, post, by rw [hsplit, List.cons_append], ?_,
            hp⟩
          intro x hx
          rcases List.mem_cons.mp hx with hx | hx
          · exact hx ▸ ⟨hq, hf⟩
          · exact hpre x hx
        · rintro ⟨pre, p, post, hsplit, hpre, hp⟩
          cases pre with
          | nil =>
            rw [List.nil_append] at hsplit
            injection hsplit with h1 h2
            exact absurd (h1 ▸ hq) hp
          | cons a pre2 =>
            rw [List.cons_append] at hsplit
            injection hsplit with h1 h2
            refine ⟨pre2, p, post, h2, ?_, hp⟩
            intro x hx
            exact hpre x (List.mem_cons_of_mem a hx)
    · constructor
      · intro _
        exact ⟨[], q, rest, by simp, by simp, hq⟩
      · intro _
        simp [wait_ekf_happy, hq]

lemma wait_ekf_ok_iff (tmo tstart : ℚ) :
    ∀ polls : List EkfPoll,
      wait_ekf_happy (some tmo) tstart polls = some (Except.ok ()) ↔
        ∃ pre p post, polls = pre ++ p :: post ∧
          (∀ q ∈ pre, q.t < tstart + tmo ∧ q.flags ≠ required_value) ∧
          p.t < tstart + tmo ∧ p.flags = required_value := by
  intro polls
  induction polls with
  | nil =>
    constructor
    · intro h
      simp [wait_ekf_happy] at h
    · rintro ⟨pre, p, post, hsplit, -, -⟩
      exact absurd hsplit (by simp)
  | cons q rest ih =>
    by_cases hq : q.t < tstart + tmo
    · have hunfold : wait_ekf_happy (some tmo) tstart (q :: rest) =
          (if q.flags = required_value then some (Except.ok ())
           else wait_ekf_happy (some tmo) tstart rest) := by
        simp [wait_ekf_happy, hq]
      by_cases hf : q.flags = required_value
      · rw [hunfold, if_pos hf]
        constructor
        · intro _
          exact ⟨[], q, rest, by simp, by simp, hq, hf⟩
        · intro _
          rfl
      · rw [hunfold, if_neg hf, ih]
        constructor
        · rintro ⟨pre, p, post, hsplit, hpre, hp⟩
          refine ⟨q :: pre, p, post, by rw [hsplit, List.cons_append], ?_,
            hp⟩
          intro x hx
          rcases List.mem_cons.mp hx with hx | hx
          · exact hx ▸ ⟨hq, hf⟩
          · exact hpre x hx
        · rintro ⟨pre, p, post, hsplit, hpre, hp⟩
          cases pre with
          | nil =>
            rw [List.nil_append] at hsplit
            injection hsplit with h1 h2
            exact absurd (h1 ▸ hp.2) hf
          | cons a pre2 =>
            rw [List.cons_append] at hsplit
            injection hsplit with h1 h2
            refine ⟨pre2, p, post, h2, ?_, hp⟩
            intro x hx
            exact hpre x (List.mem_cons_of_mem a hx)
    · have hunfold : wait_ekf_happy (some tmo) tstart (q :: rest) =
          some (Except.error AutoTestTimeoutException.mk) := by
        simp [wait_ekf_happy, hq]
      rw [hunfold]
      constructor
      · intro h
        simp at h
      · rintro ⟨pre, p, post, hsplit, hpre, hp⟩
        cases pre with
        | nil =>
          rw [List.nil_append] at hsplit
          injection hsplit with h1 h2
          exact absurd (h1 ▸ hp.1) hq
        | cons a pre2 =>
          rw [List.cons_append] at hsplit
          injection hsplit with h1 h2
          exact absurd (h1 ▸ (hpre a (List.mem_cons_self a pre2)).1) hq

/-- Claim C3: with a finite timeout, `wait_ekf_happy` raises the fatal
`AutoTestTimeoutException` exactly when the sim-time deadline passes
before any `EKF_STATUS_REPORT` sample whose flags equal the healthy
constant 831, and returns normally exactly when such a sample arrives
in time; its result type `Except AutoTestTimeoutException Unit` carries
no boolean, so no run returns `false`. -/
theorem wait_ekf_happy_raises_iff :
    ∀ (tmo tstart : ℚ) (polls : List EkfPoll),
      (wait_ekf_happy (some tmo) tstart polls =
          some (Except.error AutoTestTimeoutException.mk) ↔
        ∃ pre p post, polls = pre ++ p :: post ∧
          (∀ q ∈ pre, q.t < tstart + tmo ∧ q.flags ≠ required_value) ∧
          ¬ p.t < tstart + tmo) ∧
      (wait_ekf_happy (some tmo) tstart polls = some (Except.ok ()) ↔
        ∃ pre p post, polls = pre ++ p :: post ∧
          (∀ q ∈ pre, q.t < tstart + tmo ∧ q.flags ≠ required_value) ∧
          p.t < tstart + tmo ∧ p.flags = required_value) :=
  fun tmo tstart polls =>
    ⟨wait_ekf_error_iff tmo tstart polls, wait_ekf_ok_iff tmo tstart polls⟩

/-- Closed instance of claim C3: an unhealthy in-time sample (flags
895) followed by a healthy but late sample raises the timeout error,
while a healthy sample arriving in time returns normally. -/
theorem wait_ekf_happy_raises_iff_witness :
    wait_ekf_happy (some 30) 0 [⟨1, 895⟩, ⟨40, 831⟩] =
        some (Except.error AutoTestTimeoutException.mk) ∧
      wait_ekf_happy (some 30) 0 [⟨1, 895⟩, ⟨2, 831⟩] =
        some (Except.ok ()) := by
  constructor
  · refine (wait_ekf_happy_raises_iff 30 0 _).1.mpr
      ⟨[⟨1, 895⟩], ⟨40, 831⟩, [], rfl, ?_, by norm_num⟩
    intro q hq
    rw [List.mem_singleton] at hq
    subst hq
    exact ⟨by norm_num, by norm_num [required_value]⟩
  · refine (wait_ekf_happy_raises_iff 30 0 _).2.mpr
      ⟨[⟨1, 895⟩], ⟨2, 831⟩, [], rfl, ?_, by norm_num, rfl⟩
    intro q hq
    rw [List.mem_singleton] at hq
    subst hq
    exact ⟨by norm_num, by norm_num [required_value]⟩
